import Mathlib

/-!
Verification of the CSS-transition-disabler binding mechanism
(`src/packages/ckeditor5-ui/src/bindings/injectcsstransitiondisabler.ts`)
and of the `EasyImage` glue plugin (`src/unnamed/part_000`).

The `View`/`Template`/observable machinery and `logWarning` live outside the
excerpted sources, so their contracts are modelled from the spec (sections 4.3
and 6): an observable store of named boolean properties, a template descriptor
whose `class` attribute holds an ordered list of entries (string literals or
conditional binding rules), an `extendTemplate` operation that appends new
entries after the existing ones, and a render function that evaluates each
binding rule per render against the current value of the named property.
-/

/-- Modelled from the spec (section 6, template descriptor format): one entry of
the `class` attribute list — either a literal class token or a binding rule
produced by `bindTemplate.if( propertyName, className )`, rendered as the class
token iff the named property is currently truthy. -/
inductive TemplateEntry where
  | lit (s : String)
  | bindIf (propertyName : String) (className : String)
deriving DecidableEq, Repr

/-- All class tokens an entry list could ever contribute, whatever the flag
values: literals plus the tokens of binding rules. -/
def tokensOf : List TemplateEntry → List String
  | [] => []
  | TemplateEntry.lit s :: es => s :: tokensOf es
  | TemplateEntry.bindIf _ tok :: es => tok :: tokensOf es

/-- Modelled from the spec (section 4.3): the part of the external `View`
abstraction the excerpted code touches — the declared observable boolean
properties with their current values, the template's `class` attribute entries
(`none` before `setTemplate` is called), and the names of the methods assigned
onto the instance. -/
structure View where
  observables : List (String × Bool)
  template : Option (List TemplateEntry)
  methods : List String
deriving DecidableEq, Repr

/-- Current value of a named property in the observable store; an undeclared
property reads as falsy. -/
def lookupProp : List (String × Bool) → String → Bool
  | [], _ => false
  | p :: ps, name => if p.1 = name then p.2 else lookupProp ps name

/-- Whether a named property has been declared in the observable store. -/
def declaredProp : List (String × Bool) → String → Bool
  | [], _ => false
  | p :: ps, name => if p.1 = name then true else declaredProp ps name

/-- Write a named property in the observable store, declaring it if absent. -/
def setProp : List (String × Bool) → String → Bool → List (String × Bool)
  | [], name, value => [(name, value)]
  | p :: ps, name, value =>
      if p.1 = name then (name, value) :: ps else p :: setProp ps name value

/-- Modelled from the spec (section 4.3, `declareObservable`): `view.set( name,
value )` declares the named observable property with the given value; a
subsequent plain assignment to it propagates through the same store. -/
def View.set (v : View) (name : String) (value : Bool) : View :=
  { v with observables := setProp v.observables name value }

/-- JS property assignment of a method: the name ends up among the instance's
method names (reassignment leaves the name set unchanged). -/
def assignMethod (ms : List String) (name : String) : List String :=
  if name ∈ ms then ms else ms ++ [name]

/-- Modelled from the spec (sections 4.3 and 6, `extendTemplate`): deep-merge a
partial descriptor holding extra `class` entries into the existing template,
appending the new entries after the existing ones (append semantics, not
replace); with no base template there is nothing to merge into and the external
call fails, modelled as `none`. -/
def View.extendTemplate (v : View) (extra : List TemplateEntry) : Option View :=
  match v.template with
  | none => none
  | some es => some { v with template := some (es ++ extra) }

/-- The property name declared by the runtime injector
(`injectcsstransitiondisabler.ts` line 59). -/
def injectorFlagName : String := "_isCssTransitionsDisabled"

/-- The instance field name introduced by the mixin
(`injectcsstransitiondisabler.ts` line 102). -/
def mixinFlagName : String := "_isCssTransitionsDisabled"

/-- The class token of the binding rule (`injectcsstransitiondisabler.ts`
lines 72 and 116). -/
def disabledClassName : String := "ck-transitions-disabled"

/-- Method names assigned by the runtime injector (lines 61 and 65). -/
def injectorAssignedMethods : List String :=
  ["disableCssTransitions", "enableCssTransitions"]

/-- Method names carried by the mixin class (lines 104, 108 and 112). -/
def mixinMethodNames : List String :=
  ["disableCssTransitions", "enableCssTransitions", "initializeMixin"]

/-- Embeds `injectCssTransitionDisabler` (lines 56-76): declare the flag via
`set` with initial value `false`, assign the two control methods, then extend
the template with the binding rule
`bindTemplate.if( '_isCssTransitionsDisabled', 'ck-transitions-disabled' )`. -/
def injectCssTransitionDisabler (view : View) : Option View :=
  let d1 := view.set injectorFlagName false
  let d2 := { d1 with methods := assignMethod d1.methods "disableCssTransitions" }
  let d3 := { d2 with methods := assignMethod d2.methods "enableCssTransitions" }
  d3.extendTemplate [TemplateEntry.bindIf injectorFlagName disabledClassName]

/-- The injector's `disableCssTransitions` closure (lines 61-63): plain
assignment `decorated._isCssTransitionsDisabled = true`, which writes the
observable property. -/
def View.disableCssTransitions (v : View) : View :=
  { v with observables := setProp v.observables injectorFlagName true }

/-- The injector's `enableCssTransitions` closure (lines 65-67). -/
def View.enableCssTransitions (v : View) : View :=
  { v with observables := setProp v.observables injectorFlagName false }

/-- An instance of the class returned by `CssTransitionMixin( base )`
(lines 87-124): the `Base` part of the instance plus the plain instance field
`_isCssTransitionsDisabled` (line 102). -/
structure MixinView where
  toView : View
  _isCssTransitionsDisabled : Bool
deriving DecidableEq, Repr

/-- Constructing an instance of the mixin class: the `Base` constructor runs on
the given arguments unchanged, and the field initializer of line 102 sets the
flag to `false`. -/
def mixinNew {α : Type} (baseCtor : α → View) (args : α) : MixinView :=
  { toView := baseCtor args, _isCssTransitionsDisabled := false }

/-- The mixin's `disableCssTransitions` method (lines 104-106): plain field
write. -/
def MixinView.disableCssTransitions (m : MixinView) : MixinView :=
  { m with _isCssTransitionsDisabled := true }

/-- The mixin's `enableCssTransitions` method (lines 108-110). -/
def MixinView.enableCssTransitions (m : MixinView) : MixinView :=
  { m with _isCssTransitionsDisabled := false }

/-- The mixin's `initializeMixin` method (lines 112-120): the same
`extendTemplate` call as the injector performs. -/
def MixinView.initializeMixin (m : MixinView) : Option MixinView :=
  match m.toView.extendTemplate
      [TemplateEntry.bindIf mixinFlagName disabledClassName] with
  | none => none
  | some v => some { m with toView := v }

/-- Reading a named property on a mixin instance: the plain instance field
shadows the store for its own name; every other name resolves through the
`Base` part's observable store. -/
def MixinView.readProp (m : MixinView) (name : String) : Bool :=
  if name = mixinFlagName then m._isCssTransitionsDisabled
  else lookupProp m.toView.observables name

/-- Modelled from the spec (section 4.3, `bindIf`): per-render evaluation of
the `class` attribute — a literal is always included, a binding rule
contributes its class token iff the named property currently reads truthy. -/
def renderClasses (read : String → Bool) : List TemplateEntry → List String
  | [] => []
  | TemplateEntry.lit s :: es => s :: renderClasses read es
  | TemplateEntry.bindIf p tok :: es =>
      (if read p then [tok] else []) ++ renderClasses read es

/-- The rendered class list of an injected view (empty when no template). -/
def renderedClasses (v : View) : List String :=
  renderClasses (lookupProp v.observables) (v.template.getD [])

/-- The rendered class list of a mixin instance. -/
def mixinRenderedClasses (m : MixinView) : List String :=
  renderClasses m.readProp (m.toView.template.getD [])

/-- One call of either control method. -/
inductive TransitionCall where
  | disable
  | enable
deriving DecidableEq, Repr

/-- The flag value after a sequence of enable/disable calls starting from a
given value: the last call wins. -/
def flagAfter (init : Bool) : List TransitionCall → Bool
  | [] => init
  | TransitionCall.disable :: cs => flagAfter true cs
  | TransitionCall.enable :: cs => flagAfter false cs

/-- Run a call sequence against an injected view. -/
def runCallsInjected (v : View) : List TransitionCall → View
  | [] => v
  | TransitionCall.disable :: cs => runCallsInjected v.disableCssTransitions cs
  | TransitionCall.enable :: cs => runCallsInjected v.enableCssTransitions cs

/-- Run a call sequence against a mixin instance. -/
def runCallsMixin (m : MixinView) : List TransitionCall → MixinView
  | [] => m
  | TransitionCall.disable :: cs => runCallsMixin m.disableCssTransitions cs
  | TransitionCall.enable :: cs => runCallsMixin m.enableCssTransitions cs

/-- In-place mutation at the reference level: views live at numbered
references; `injectCssTransitionDisabler` mutates the view stored at the given
reference and the caller keeps that same reference, type-widened by the
function's `asserts` signature (line 56). -/
def injectAt (heap : Nat → View) (r : Nat) : Option ((Nat → View) × Nat) :=
  match injectCssTransitionDisabler (heap r) with
  | none => none
  | some w => some (fun x => if x = r then w else heap x, r)

/-- Modelled from the spec (section 6): the plugin registry of the owning
editor, queried by plugin name. -/
structure Editor where
  plugins : List String
deriving DecidableEq, Repr

/-- Membership query `editor.plugins.has( name )`. -/
def Editor.hasPlugin (e : Editor) (name : String) : Bool :=
  decide (name ∈ e.plugins)

/-- The fixed diagnostic identifier of `EasyImage.init`
(`src/unnamed/part_000` line 73). -/
def easyImageWarningId : String := "easy-image-image-feature-missing"

/-- Embeds `EasyImage.init` (`src/unnamed/part_000` lines 57-75), with
`logWarning` modelled from the spec (section 6) as emitting one diagnostic
event carrying the fixed identifier and a reference to the owning editor; the
returned list is the sequence of emitted diagnostics. -/
def easyImageInit (editor : Editor) : List (String × Editor) :=
  if !(editor.hasPlugin "ImageBlockEditing")
      && !(editor.hasPlugin "ImageInlineEditing") then
    [(easyImageWarningId, editor)]
  else
    []

/-- A base view whose template is already set with class tokens `a` and `b`,
used to instantiate the witnesses. -/
def exampleBaseView : View :=
  { observables := [],
    template := some [TemplateEntry.lit "a", TemplateEntry.lit "b"],
    methods := [] }

theorem lookupProp_setProp_self (l : List (String × Bool)) (n : String) (b : Bool) :
    lookupProp (setProp l n b) n = b := by
  induction l with
  | nil => simp [setProp, lookupProp]
  | cons p ps ih =>
    by_cases h : p.1 = n
    · simp [setProp, h, lookupProp]
    · simp [setProp, h, lookupProp, ih]

theorem lookupProp_setProp_other (l : List (String × Bool)) (n m : String) (b : Bool)
    (h : m ≠ n) : lookupProp (setProp l n b) m = lookupProp l m := by
  induction l with
  | nil => simp [setProp, lookupProp, Ne.symm h]
  | cons p ps ih =>
    by_cases hp : p.1 = n
    · simp [setProp, hp, lookupProp, Ne.symm h]
    · simp [setProp, hp, lookupProp, ih]

theorem setProp_setProp_self (l : List (String × Bool)) (n : String) (b c : Bool) :
    setProp (setProp l n b) n c = setProp l n c := by
  induction l with
  | nil => simp [setProp]
  | cons p ps ih =>
    by_cases h : p.1 = n
    · simp [setProp, h]
    · simp [setProp, h, ih]

theorem declaredProp_setProp_self (l : List (String × Bool)) (n : String) (b : Bool) :
    declaredProp (setProp l n b) n = true := by
  induction l with
  | nil => simp [setProp, declaredProp]
  | cons p ps ih =>
    by_cases h : p.1 = n
    · simp [setProp, h, declaredProp]
    · simp [setProp, h, declaredProp, ih]

theorem mem_assignMethod_self (ms : List String) (n : String) :
    n ∈ assignMethod ms n := by
  by_cases h : n ∈ ms <;> simp [assignMethod, h]

theorem mem_assignMethod_of_mem (ms : List String) (n m : String) (h : n ∈ ms) :
    n ∈ assignMethod ms m := by
  by_cases hm : m ∈ ms <;> simp [assignMethod, hm, h]

theorem renderClasses_append (read : String → Bool) (es fs : List TemplateEntry) :
    renderClasses read (es ++ fs) = renderClasses read es ++ renderClasses read fs := by
  induction es with
  | nil => simp [renderClasses]
  | cons e es ih => cases e <;> simp [renderClasses, ih]

theorem mem_tokensOf_of_mem_renderClasses (read : String → Bool)
    (es : List TemplateEntry) (s : String) (h : s ∈ renderClasses read es) :
    s ∈ tokensOf es := by
  induction es with
  | nil => simp [renderClasses] at h
  | cons e es ih =>
    cases e with
    | lit t =>
      rcases (by simpa [renderClasses] using h) with h1 | h2
      · simp [tokensOf, h1]
      · simp [tokensOf, ih h2]
    | bindIf p tok =>
      by_cases hp : read p
      · rcases (by simpa [renderClasses, hp] using h) with h1 | h2
        · simp [tokensOf, h1]
        · simp [tokensOf, ih h2]
      · simp only [renderClasses, hp, if_neg, Bool.false_eq_true, ite_false,
          List.nil_append] at h
        simp [tokensOf, ih h]

theorem renderClasses_congr (r₁ r₂ : String → Bool) (es : List TemplateEntry)
    (h : ∀ n, r₁ n = r₂ n) : renderClasses r₁ es = renderClasses r₂ es := by
  induction es with
  | nil => rfl
  | cons e es ih => cases e <;> simp [renderClasses, ih, h]

theorem runCallsInjected_template (v : View) (cs : List TransitionCall) :
    (runCallsInjected v cs).template = v.template := by
  induction cs generalizing v with
  | nil => rfl
  | cons c cs ih =>
    cases c <;>
      simp [runCallsInjected, View.disableCssTransitions, View.enableCssTransitions, ih]

theorem runCallsInjected_methods (v : View) (cs : List TransitionCall) :
    (runCallsInjected v cs).methods = v.methods := by
  induction cs generalizing v with
  | nil => rfl
  | cons c cs ih =>
    cases c <;>
      simp [runCallsInjected, View.disableCssTransitions, View.enableCssTransitions, ih]

theorem runCallsInjected_flag (v : View) (cs : List TransitionCall) :
    lookupProp (runCallsInjected v cs).observables injectorFlagName
      = flagAfter (lookupProp v.observables injectorFlagName) cs := by
  induction cs generalizing v with
  | nil => rfl
  | cons c cs ih =>
    cases c <;>
      simp [runCallsInjected, flagAfter, View.disableCssTransitions,
        View.enableCssTransitions, ih, lookupProp_setProp_self]

theorem runCallsInjected_other (v : View) (cs : List TransitionCall) (n : String)
    (h : n ≠ injectorFlagName) :
    lookupProp (runCallsInjected v cs).observables n = lookupProp v.observables n := by
  induction cs generalizing v with
  | nil => rfl
  | cons c cs ih =>
    cases c <;>
      simp [runCallsInjected, View.disableCssTransitions, View.enableCssTransitions,
        ih, lookupProp_setProp_other _ _ _ _ h]

theorem runCallsMixin_toView (m : MixinView) (cs : List TransitionCall) :
    (runCallsMixin m cs).toView = m.toView := by
  induction cs generalizing m with
  | nil => rfl
  | cons c cs ih =>
    cases c <;>
      simp [runCallsMixin, MixinView.disableCssTransitions,
        MixinView.enableCssTransitions, ih]

theorem runCallsMixin_flag (m : MixinView) (cs : List TransitionCall) :
    (runCallsMixin m cs)._isCssTransitionsDisabled
      = flagAfter m._isCssTransitionsDisabled cs := by
  induction cs generalizing m with
  | nil => rfl
  | cons c cs ih =>
    cases c <;>
      simp [runCallsMixin, flagAfter, MixinView.disableCssTransitions,
        MixinView.enableCssTransitions, ih]

theorem notMem_renderClasses (read : String → Bool) (es : List TemplateEntry)
    (tok : String) (htok : tok ∉ tokensOf es) : tok ∉ renderClasses read es :=
  fun h => htok (mem_tokensOf_of_mem_renderClasses read es tok h)

theorem mem_renderClasses_append_bindIf (read : String → Bool)
    (es : List TemplateEntry) (p tok : String) (htok : tok ∉ tokensOf es) :
    (tok ∈ renderClasses read (es ++ [TemplateEntry.bindIf p tok]) ↔ read p = true) := by
  have h1 : tok ∉ renderClasses read es := notMem_renderClasses read es tok htok
  cases hp : read p <;> simp [renderClasses_append, renderClasses, hp, h1]

/-- A mixin instance over the example base view, used to instantiate the
witnesses. -/
def exampleMixinView : MixinView :=
  mixinNew (fun x : View => x) exampleBaseView

/-- C3: on every injected or mixin-composed view, in every state,
`disableCssTransitions` sets `_isCssTransitionsDisabled` to `true` and
`enableCssTransitions` sets it to `false`, and each method is idempotent under
repetition (in the strong sense that the repeated call does not change the
state at all). -/
theorem toggle_correctness_and_idempotence (v : View) (m : MixinView) :
    lookupProp v.disableCssTransitions.observables injectorFlagName = true ∧
    lookupProp v.enableCssTransitions.observables injectorFlagName = false ∧
    v.disableCssTransitions.disableCssTransitions = v.disableCssTransitions ∧
    v.enableCssTransitions.enableCssTransitions = v.enableCssTransitions ∧
    m.disableCssTransitions._isCssTransitionsDisabled = true ∧
    m.enableCssTransitions._isCssTransitionsDisabled = false ∧
    m.disableCssTransitions.disableCssTransitions = m.disableCssTransitions ∧
    m.enableCssTransitions.enableCssTransitions = m.enableCssTransitions := by
  refine ⟨?_, ?_, ?_, ?_, rfl, rfl, rfl, rfl⟩ <;>
    simp [View.disableCssTransitions, View.enableCssTransitions,
      lookupProp_setProp_self, setProp_setProp_self]

/-- C9: `EasyImage.init` emits exactly the one diagnostic
`easy-image-image-feature-missing`, carrying the owning editor, iff the plugin
registry holds neither `ImageBlockEditing` nor `ImageInlineEditing`; when at
least one is present it emits nothing. -/
theorem easyimage_init_warning_iff (e : Editor) :
    (easyImageInit e = [(easyImageWarningId, e)] ↔
      (e.hasPlugin "ImageBlockEditing" = false ∧
        e.hasPlugin "ImageInlineEditing" = false)) ∧
    (easyImageInit e = [] ↔
      (e.hasPlugin "ImageBlockEditing" = true ∨
        e.hasPlugin "ImageInlineEditing" = true)) := by
  cases hb : e.hasPlugin "ImageBlockEditing" <;>
    cases hi : e.hasPlugin "ImageInlineEditing" <;>
      simp [easyImageInit, hb, hi]

/-- C10: constructing an instance of the mixin-composed class runs the base
constructor on the unchanged argument list and differs from the plain base
instance only by the flag field, initialized to `false` as a plain instance
field — the declared-observable store of the base part is untouched, so the
flag is not declared through the view's observable facility — plus the three
mixin methods. -/
theorem mixin_constructor_frame {α : Type} (baseCtor : α → View) (args : α) :
    (mixinNew baseCtor args).toView = baseCtor args ∧
    (mixinNew baseCtor args)._isCssTransitionsDisabled = false ∧
    declaredProp (mixinNew baseCtor args).toView.observables mixinFlagName
      = declaredProp (baseCtor args).observables mixinFlagName ∧
    mixinMethodNames
      = ["disableCssTransitions", "enableCssTransitions", "initializeMixin"] :=
  ⟨rfl, rfl, rfl, rfl⟩

/-- C8: the two control methods are pure setters of the capability flag — on an
injected view they change only the `_isCssTransitionsDisabled` observable (the
template, the method set and every other property are untouched), and on a
mixin instance they change only the flag field (the whole base part is
untouched). -/
theorem control_methods_pure_setters (v : View) (m : MixinView) (n : String)
    (hn : n ≠ injectorFlagName) :
    v.disableCssTransitions.template = v.template ∧
    v.disableCssTransitions.methods = v.methods ∧
    lookupProp v.disableCssTransitions.observables n = lookupProp v.observables n ∧
    lookupProp v.disableCssTransitions.observables injectorFlagName = true ∧
    v.enableCssTransitions.template = v.template ∧
    v.enableCssTransitions.methods = v.methods ∧
    lookupProp v.enableCssTransitions.observables n = lookupProp v.observables n ∧
    lookupProp v.enableCssTransitions.observables injectorFlagName = false ∧
    m.disableCssTransitions.toView = m.toView ∧
    m.enableCssTransitions.toView = m.toView ∧
    m.disableCssTransitions._isCssTransitionsDisabled = true ∧
    m.enableCssTransitions._isCssTransitionsDisabled = false := by
  refine ⟨rfl, rfl, ?_, ?_, rfl, rfl, ?_, ?_, rfl, rfl, rfl, rfl⟩ <;>
    simp [View.disableCssTransitions, View.enableCssTransitions,
      lookupProp_setProp_self, lookupProp_setProp_other _ _ _ _ hn]

theorem control_methods_pure_setters_witness :
    ("x" : String) ≠ injectorFlagName ∧
    (exampleBaseView.disableCssTransitions.template = exampleBaseView.template ∧
    exampleBaseView.disableCssTransitions.methods = exampleBaseView.methods ∧
    lookupProp exampleBaseView.disableCssTransitions.observables "x"
      = lookupProp exampleBaseView.observables "x" ∧
    lookupProp exampleBaseView.disableCssTransitions.observables injectorFlagName = true ∧
    exampleBaseView.enableCssTransitions.template = exampleBaseView.template ∧
    exampleBaseView.enableCssTransitions.methods = exampleBaseView.methods ∧
    lookupProp exampleBaseView.enableCssTransitions.observables "x"
      = lookupProp exampleBaseView.observables "x" ∧
    lookupProp exampleBaseView.enableCssTransitions.observables injectorFlagName = false ∧
    exampleMixinView.disableCssTransitions.toView = exampleMixinView.toView ∧
    exampleMixinView.enableCssTransitions.toView = exampleMixinView.toView ∧
    exampleMixinView.disableCssTransitions._isCssTransitionsDisabled = true ∧
    exampleMixinView.enableCssTransitions._isCssTransitionsDisabled = false) :=
  ⟨by decide,
    control_methods_pure_setters exampleBaseView exampleMixinView "x" (by decide)⟩

theorem inject_eq (v : View) (es : List TemplateEntry) (ht : v.template = some es) :
    injectCssTransitionDisabler v = some
      { observables := setProp v.observables injectorFlagName false,
        template := some (es ++ [TemplateEntry.bindIf injectorFlagName disabledClassName]),
        methods := assignMethod (assignMethod v.methods "disableCssTransitions")
          "enableCssTransitions" } := by
  simp [injectCssTransitionDisabler, View.set, View.extendTemplate, ht]

theorem initializeMixin_eq (m : MixinView) (es : List TemplateEntry)
    (ht : m.toView.template = some es) :
    MixinView.initializeMixin m = some
      { m with
        toView := { m.toView with
          template := some (es ++ [TemplateEntry.bindIf mixinFlagName disabledClassName]) } } := by
  simp [MixinView.initializeMixin, View.extendTemplate, ht]

theorem assignMethod_of_mem (ms : List String) (n : String) (h : n ∈ ms) :
    assignMethod ms n = ms := by
  simp [assignMethod, h]

/-- C4: on a view whose template already holds class entries, the
template-extension call of the injector (and of `initializeMixin`) appends
exactly one binding rule after the existing entries, dropping, replacing and
reordering nothing. -/
theorem template_extension_appends (v : View) (es : List TemplateEntry)
    (ht : v.template = some es) :
    (∃ w, injectCssTransitionDisabler v = some w ∧
      w.template = some (es ++ [TemplateEntry.bindIf injectorFlagName disabledClassName])) ∧
    (∃ m, MixinView.initializeMixin (mixinNew (fun x : View => x) v) = some m ∧
      m.toView.template
        = some (es ++ [TemplateEntry.bindIf mixinFlagName disabledClassName])) := by
  refine ⟨⟨_, inject_eq v es ht, rfl⟩, ⟨_, initializeMixin_eq (mixinNew (fun x : View => x) v) es ht, rfl⟩⟩

theorem template_extension_appends_witness :
    exampleBaseView.template = some [TemplateEntry.lit "a", TemplateEntry.lit "b"] ∧
    ((∃ w, injectCssTransitionDisabler exampleBaseView = some w ∧
      w.template = some ([TemplateEntry.lit "a", TemplateEntry.lit "b"]
        ++ [TemplateEntry.bindIf injectorFlagName disabledClassName])) ∧
    (∃ m, MixinView.initializeMixin (mixinNew (fun x : View => x) exampleBaseView) = some m ∧
      m.toView.template = some ([TemplateEntry.lit "a", TemplateEntry.lit "b"]
        ++ [TemplateEntry.bindIf mixinFlagName disabledClassName]))) :=
  ⟨rfl, template_extension_appends exampleBaseView
    [TemplateEntry.lit "a", TemplateEntry.lit "b"] rfl⟩

/-- C7: double injection is not detected or rejected — the second call on the
same instance succeeds, redeclares the flag (back to `false`), leaves the
method-name set as it was (the closures are merely reassigned), and merges a
second copy of the binding rule into the template's class list. -/
theorem double_injection_duplicates_rule (v : View) (es : List TemplateEntry)
    (ht : v.template = some es) :
    ∃ w w2, injectCssTransitionDisabler v = some w ∧
      injectCssTransitionDisabler w = some w2 ∧
      w2.template = some ((es ++ [TemplateEntry.bindIf injectorFlagName disabledClassName])
        ++ [TemplateEntry.bindIf injectorFlagName disabledClassName]) ∧
      lookupProp w2.observables injectorFlagName = false ∧
      w2.methods = w.methods := by
  refine ⟨_, _, inject_eq v es ht, inject_eq _ _ rfl, rfl, ?_, ?_⟩
  · simp [setProp_setProp_self, lookupProp_setProp_self]
  · have hd : "disableCssTransitions" ∈ assignMethod
        (assignMethod v.methods "disableCssTransitions") "enableCssTransitions" :=
      mem_assignMethod_of_mem _ _ _ (mem_assignMethod_self _ _)
    have he : "enableCssTransitions" ∈ assignMethod
        (assignMethod v.methods "disableCssTransitions") "enableCssTransitions" :=
      mem_assignMethod_self _ _
    simp [assignMethod_of_mem _ _ hd, assignMethod_of_mem _ _ he]

theorem double_injection_duplicates_rule_witness :
    exampleBaseView.template = some [TemplateEntry.lit "a", TemplateEntry.lit "b"] ∧
    (∃ w w2, injectCssTransitionDisabler exampleBaseView = some w ∧
      injectCssTransitionDisabler w = some w2 ∧
      w2.template = some (([TemplateEntry.lit "a", TemplateEntry.lit "b"]
          ++ [TemplateEntry.bindIf injectorFlagName disabledClassName])
        ++ [TemplateEntry.bindIf injectorFlagName disabledClassName]) ∧
      lookupProp w2.observables injectorFlagName = false ∧
      w2.methods = w.methods) :=
  ⟨rfl, double_injection_duplicates_rule exampleBaseView
    [TemplateEntry.lit "a", TemplateEntry.lit "b"] rfl⟩

/-- C6: the injector mutates the view in place, so the caller afterwards holds
the very same reference it passed in, now exposing the new capability — the
flag is a declared observable property and both control methods are present on
that same reference. -/
theorem injector_returns_same_reference (heap : Nat → View) (r : Nat)
    (es : List TemplateEntry) (ht : (heap r).template = some es) :
    ∃ res, injectAt heap r = some res ∧ res.2 = r ∧
      declaredProp (res.1 r).observables injectorFlagName = true ∧
      "disableCssTransitions" ∈ (res.1 r).methods ∧
      "enableCssTransitions" ∈ (res.1 r).methods := by
  refine ⟨(fun x => if x = r then
      { observables := setProp (heap r).observables injectorFlagName false,
        template := some (es ++ [TemplateEntry.bindIf injectorFlagName disabledClassName]),
        methods := assignMethod (assignMethod (heap r).methods "disableCssTransitions")
          "enableCssTransitions" }
    else heap x, r), ?_, rfl, ?_, ?_, ?_⟩
  · simp [injectAt, inject_eq (heap r) es ht]
  · simp [declaredProp_setProp_self]
  · simp [mem_assignMethod_of_mem _ _ _ (mem_assignMethod_self ((heap r).methods) "disableCssTransitions")]
  · simp [mem_assignMethod_self]

theorem injector_returns_same_reference_witness :
    ((fun _ : Nat => exampleBaseView) 0).template
      = some [TemplateEntry.lit "a", TemplateEntry.lit "b"] ∧
    (∃ res, injectAt (fun _ : Nat => exampleBaseView) 0 = some res ∧ res.2 = 0 ∧
      declaredProp (res.1 0).observables injectorFlagName = true ∧
      "disableCssTransitions" ∈ (res.1 0).methods ∧
      "enableCssTransitions" ∈ (res.1 0).methods) :=
  ⟨rfl, injector_returns_same_reference (fun _ : Nat => exampleBaseView) 0
    [TemplateEntry.lit "a", TemplateEntry.lit "b"] rfl⟩

/-- C2: immediately after injection, and on a freshly constructed mixin
instance (before and after `initializeMixin`), the capability flag reads
`false` and the bound class token `ck-transitions-disabled` is absent from the
merged template's rendered class list. -/
theorem default_state_fresh (v : View) (es : List TemplateEntry)
    (ht : v.template = some es)
    (htok : disabledClassName ∉ tokensOf es) :
    ∃ w m, injectCssTransitionDisabler v = some w ∧
      MixinView.initializeMixin (mixinNew (fun x : View => x) v) = some m ∧
      lookupProp w.observables injectorFlagName = false ∧
      disabledClassName ∉ renderedClasses w ∧
      (mixinNew (fun x : View => x) v)._isCssTransitionsDisabled = false ∧
      disabledClassName ∉ mixinRenderedClasses (mixinNew (fun x : View => x) v) ∧
      m._isCssTransitionsDisabled = false ∧
      disabledClassName ∉ mixinRenderedClasses m := by
  refine ⟨_, _, inject_eq v es ht, initializeMixin_eq _ es ht, ?_, ?_, rfl, ?_, rfl, ?_⟩
  · simp [lookupProp_setProp_self]
  · simp [renderedClasses, mem_renderClasses_append_bindIf _ _ _ _ htok,
      lookupProp_setProp_self]
  · simp only [mixinRenderedClasses, mixinNew, ht, Option.getD_some]
    exact notMem_renderClasses _ _ _ htok
  · simp [mixinRenderedClasses, mixinNew, MixinView.readProp,
      mem_renderClasses_append_bindIf _ _ _ _ htok]

theorem default_state_fresh_witness :
    exampleBaseView.template = some [TemplateEntry.lit "a", TemplateEntry.lit "b"] ∧
    disabledClassName ∉ tokensOf [TemplateEntry.lit "a", TemplateEntry.lit "b"] ∧
    (∃ w m, injectCssTransitionDisabler exampleBaseView = some w ∧
      MixinView.initializeMixin (mixinNew (fun x : View => x) exampleBaseView) = some m ∧
      lookupProp w.observables injectorFlagName = false ∧
      disabledClassName ∉ renderedClasses w ∧
      (mixinNew (fun x : View => x) exampleBaseView)._isCssTransitionsDisabled = false ∧
      disabledClassName ∉ mixinRenderedClasses (mixinNew (fun x : View => x) exampleBaseView) ∧
      m._isCssTransitionsDisabled = false ∧
      disabledClassName ∉ mixinRenderedClasses m) :=
  ⟨rfl, by decide, default_state_fresh exampleBaseView
    [TemplateEntry.lit "a", TemplateEntry.lit "b"] rfl (by decide)⟩

/-- C5: constructing a mixin instance does not run the template-extension merge
— without a call to `initializeMixin` the flag and both control methods work as
plain state under every call sequence, the base part (its template included) is
never touched, and the bound class token never appears in the rendered class
list; the model is total, so no exception is raised. -/
theorem mixin_without_initialize {α : Type} (baseCtor : α → View) (args : α)
    (cs : List TransitionCall) (es : List TemplateEntry)
    (ht : (baseCtor args).template = some es)
    (htok : disabledClassName ∉ tokensOf es) :
    (runCallsMixin (mixinNew baseCtor args) cs).toView = baseCtor args ∧
    (runCallsMixin (mixinNew baseCtor args) cs)._isCssTransitionsDisabled
      = flagAfter false cs ∧
    disabledClassName ∉ mixinRenderedClasses (runCallsMixin (mixinNew baseCtor args) cs) := by
  refine ⟨runCallsMixin_toView _ _, ?_, ?_⟩
  · rw [runCallsMixin_flag]; rfl
  · simp only [mixinRenderedClasses, runCallsMixin_toView, mixinNew, ht, Option.getD_some]
    exact notMem_renderClasses _ _ _ htok

theorem mixin_without_initialize_witness :
    ((fun _ : Unit => exampleBaseView) ()).template
      = some [TemplateEntry.lit "a", TemplateEntry.lit "b"] ∧
    disabledClassName ∉ tokensOf [TemplateEntry.lit "a", TemplateEntry.lit "b"] ∧
    ((runCallsMixin (mixinNew (fun _ : Unit => exampleBaseView) ())
        [TransitionCall.disable]).toView = (fun _ : Unit => exampleBaseView) () ∧
    (runCallsMixin (mixinNew (fun _ : Unit => exampleBaseView) ())
        [TransitionCall.disable])._isCssTransitionsDisabled
      = flagAfter false [TransitionCall.disable] ∧
    disabledClassName ∉ mixinRenderedClasses
      (runCallsMixin (mixinNew (fun _ : Unit => exampleBaseView) ())
        [TransitionCall.disable])) :=
  ⟨rfl, by decide, mixin_without_initialize (fun _ : Unit => exampleBaseView) ()
    [TransitionCall.disable] [TemplateEntry.lit "a", TemplateEntry.lit "b"]
    rfl (by decide)⟩

/-- C1: a view decorated by the runtime injector and an otherwise-identical
view built from the mixin-composed class (with `initializeMixin` invoked after
the template is set) are observably equivalent — same flag name, same control
method names, the same flag value after every sequence of enable/disable
calls, the same rendered class list, and the bound class token present iff the
flag is `true`. -/
theorem injector_mixin_observably_equivalent (v : View) (es : List TemplateEntry)
    (ht : v.template = some es)
    (htok : disabledClassName ∉ tokensOf es) :
    injectorFlagName = mixinFlagName ∧
    (∀ n, n ∈ injectorAssignedMethods → n ∈ mixinMethodNames) ∧
    ∃ w m, injectCssTransitionDisabler v = some w ∧
      MixinView.initializeMixin (mixinNew (fun x : View => x) v) = some m ∧
      ∀ cs : List TransitionCall,
        lookupProp (runCallsInjected w cs).observables injectorFlagName
          = (runCallsMixin m cs)._isCssTransitionsDisabled ∧
        renderedClasses (runCallsInjected w cs)
          = mixinRenderedClasses (runCallsMixin m cs) ∧
        (disabledClassName ∈ renderedClasses (runCallsInjected w cs) ↔
          lookupProp (runCallsInjected w cs).observables injectorFlagName = true) := by
  refine ⟨rfl, ?_, _, _, inject_eq v es ht, initializeMixin_eq _ es ht, ?_⟩
  · intro n hn
    simp only [injectorAssignedMethods, List.mem_cons, List.mem_singleton,
      List.not_mem_nil, or_false] at hn
    rcases hn with rfl | rfl <;> simp [mixinMethodNames]
  · intro cs
    refine ⟨?_, ?_, ?_⟩
    · rw [runCallsInjected_flag, runCallsMixin_flag]
      simp [lookupProp_setProp_self, mixinNew]
    · simp only [renderedClasses, mixinRenderedClasses, runCallsInjected_template,
        runCallsMixin_toView, mixinNew, Option.getD_some,
        injectorFlagName, mixinFlagName]
      apply renderClasses_congr
      intro n
      by_cases hn : n = injectorFlagName
      · subst hn
        rw [runCallsInjected_flag, MixinView.readProp]
        simp [lookupProp_setProp_self, runCallsMixin_flag, mixinNew,
          injectorFlagName, mixinFlagName]
      · rw [runCallsInjected_other _ _ _ hn, MixinView.readProp]
        have hn2 : ¬ n = mixinFlagName := hn
        have hn3 : n ≠ "_isCssTransitionsDisabled" := hn
        simp [hn2, runCallsMixin_toView, mixinNew,
          lookupProp_setProp_other _ _ _ _ hn3]
    · simp only [renderedClasses, runCallsInjected_template, Option.getD_some]
      exact mem_renderClasses_append_bindIf _ _ _ _ htok

theorem injector_mixin_observably_equivalent_witness :
    exampleBaseView.template = some [TemplateEntry.lit "a", TemplateEntry.lit "b"] ∧
    disabledClassName ∉ tokensOf [TemplateEntry.lit "a", TemplateEntry.lit "b"] ∧
    (injectorFlagName = mixinFlagName ∧
    (∀ n, n ∈ injectorAssignedMethods → n ∈ mixinMethodNames) ∧
    ∃ w m, injectCssTransitionDisabler exampleBaseView = some w ∧
      MixinView.initializeMixin (mixinNew (fun x : View => x) exampleBaseView) = some m ∧
      ∀ cs : List TransitionCall,
        lookupProp (runCallsInjected w cs).observables injectorFlagName
          = (runCallsMixin m cs)._isCssTransitionsDisabled ∧
        renderedClasses (runCallsInjected w cs)
          = mixinRenderedClasses (runCallsMixin m cs) ∧
        (disabledClassName ∈ renderedClasses (runCallsInjected w cs) ↔
          lookupProp (runCallsInjected w cs).observables injectorFlagName = true)) :=
  ⟨rfl, by decide, injector_mixin_observably_equivalent exampleBaseView
    [TemplateEntry.lit "a", TemplateEntry.lit "b"] rfl (by decide)⟩
